import Mathlib

/-!
Shallow embedding of `src/flipper-lightweight-gen.c` (a Flipper Zero
generative-art app) and proofs about the claims of its specification.

Modelling conventions:
* `uint32_t` values are `Nat` reduced `% UINT32` exactly where the C
  arithmetic wraps; `uint8_t` pixel values are `Nat` in `[0,255]` kept in
  range by the same clamps the source applies; the 8-bit `frame_count`
  wraps `% 256` at its increment.
* C `float` arithmetic is modelled by exact rational arithmetic over `ℚ`
  (the float literals `0.5f`, `0.1f`, `1.414f`, ... become the exact
  rationals they denote).  The two irrational float library calls `sqrtf`
  and `atan2f` cannot be given exact rational values, so the functions
  that use them take the two library functions as explicit parameters
  `sqrtA : ℚ → ℚ` and `atan2A : ℚ → ℚ → ℚ`; every theorem about them
  holds for an arbitrary interpretation of these two parameters.
* A C cast `(uint8_t)f` / `(uint32_t)f` of a nonnegative float truncates;
  it is modelled as `⌊·⌋.toNat` followed by the wrap of the target width.
* The pixel raster `uint8_t pixels[128*64]` is modelled as a total
  function `Nat → Nat` indexed by `idx = y * SCREEN_WIDTH + x`.
-/

/-- `#define SCREEN_WIDTH 128` -/
def SCREEN_WIDTH : Nat := 128

/-- `#define SCREEN_HEIGHT 64` -/
def SCREEN_HEIGHT : Nat := 64

/-- `2^32`, the modulus of the C `uint32_t` arithmetic. -/
def UINT32 : Nat := 4294967296

/-- The mutable `GenerativeState` struct of the source (host-resource
handles excluded; `mode` is kept although the source never reads it). -/
structure GenerativeState where
  pixels : Nat → Nat
  seed : Nat
  mode : Nat
  gradient_type : Nat
  frequency : ℚ
  noise_scale : ℚ
  invert : Bool
  frame_count : Nat

/-- `xorshift32` (source lines 31-36): the three XOR-shift steps
`<<13`, `>>17`, `<<5` in that order on the running 32-bit state; the
returned value is the new state. -/
def xorshift32 (s : Nat) : Nat :=
  let s1 := s ^^^ ((s <<< 13) % UINT32)
  let s2 := s1 ^^^ (s1 >>> 17)
  s2 ^^^ ((s2 <<< 5) % UINT32)

/-- The 64-entry `sine_table` (source lines 39-44). -/
def sine_table : List Int :=
  [0, 6, 12, 18, 24, 30, 36, 41, 46, 50, 54, 57, 60, 62, 63, 64,
   63, 62, 60, 57, 54, 50, 46, 41, 36, 30, 24, 18, 12, 6, 0, -6,
   -12, -18, -24, -30, -36, -41, -46, -50, -54, -57, -60, -62, -63, -64,
   -63, -62, -60, -57, -54, -50, -46, -41, -36, -30, -24, -18, -12, -6, 0, 0, 0, 0]

/-- `fast_sin` (source lines 46-48): table lookup at `angle & 63`. -/
def fast_sin (angle : Nat) : Int := sine_table.getD (angle &&& 63) 0

/-- `simple_noise` (source lines 51-55): hash mix over `uint32_t`. -/
def simple_noise (x y seed : Nat) : Nat :=
  let hash0 := (x * 374761393 + y * 668265263 + seed) % UINT32
  let hash1 := ((hash0 ^^^ (hash0 >>> 13)) * 1274126177) % UINT32
  (hash1 ^^^ (hash1 >>> 16)) &&& 255

/-- C cast of a (nonnegative) float expression to `uint8_t`:
truncate, then wrap to 8 bits. -/
def toU8 (q : ℚ) : Nat := (⌊q⌋).toNat % 256

/-- C cast of a (nonnegative) float expression to `uint32_t`:
truncate, then wrap to 32 bits. -/
def toU32 (q : ℚ) : Nat := (⌊q⌋).toNat % UINT32

/-- C `fmodf a b` for rational arguments: `a - b * trunc (a / b)`. -/
def fmodQ (a b : ℚ) : ℚ :=
  a - b * (if a / b < 0 then ⌈a / b⌉ else ⌊a / b⌋ : ℤ)

/-- The `switch(state->gradient_type)` dispatch of `generate_gradient`
(source lines 63-114), producing the raw pattern value before the noise
overlay.  `sqrtA` and `atan2A` stand for the float library functions
`sqrtf` and `atan2f` (see the module comment). -/
def pattern_value (sqrtA : ℚ → ℚ) (atan2A : ℚ → ℚ → ℚ)
    (nx ny : ℚ) (x y : Nat) (s : GenerativeState) : ℚ :=
  if s.gradient_type = 0 then nx
  else if s.gradient_type = 1 then ny
  else if s.gradient_type = 2 then
    sqrtA ((nx - 0.5) * (nx - 0.5) + (ny - 0.5) * (ny - 0.5)) * 1.414
  else if s.gradient_type = 3 then (nx + ny) / 2
  else if s.gradient_type = 4 then
    ((fast_sin (toU8 (nx * 64 * s.frequency)) : ℚ) + 64) / 128
  else if s.gradient_type = 5 then
    ((fast_sin (toU8 (ny * 64 * s.frequency + 16)) : ℚ) + 64) / 128
  else if s.gradient_type = 6 then
    let wave1 := fast_sin (toU8 (nx * 32 * s.frequency))
    let wave2 := fast_sin (toU8 (ny * 32 * s.frequency))
    ((Int.tdiv (wave1 * wave2) 64 : ℚ) + 64) / 128
  else if s.gradient_type = 7 then
    let check_x := toU8 (nx * 8 * s.frequency) &&& 1
    let check_y := toU8 (ny * 8 * s.frequency) &&& 1
    if check_x ^^^ check_y ≠ 0 then 1 else 0
  else if s.gradient_type = 8 then (simple_noise x y s.seed : ℚ) / 255
  else if s.gradient_type = 9 then
    let dx := nx - 0.5
    let dy := ny - 0.5
    let angle := atan2A dy dx
    let dist := sqrtA (dx * dx + dy * dy)
    fmodQ (angle + dist * 10) 6.28 / 6.28
  else nx

/-- The two sequential clamp statements
`if(value < 0) value = 0; if(value > 1) value = 1;` (source lines 127-128). -/
def clamp01 (v : ℚ) : ℚ :=
  let v1 := if v < 0 then 0 else v
  if v1 > 1 then 1 else v1

/-- `generate_gradient` (source lines 58-132): dispatch, optional noise
overlay, clamp, optional inversion, scale to the 8-bit range. -/
def generate_gradient (sqrtA : ℚ → ℚ) (atan2A : ℚ → ℚ → ℚ)
    (x y : Nat) (s : GenerativeState) : Nat :=
  let nx : ℚ := (x : ℚ) / (SCREEN_WIDTH : ℚ)
  let ny : ℚ := (y : ℚ) / (SCREEN_HEIGHT : ℚ)
  let value := pattern_value sqrtA atan2A nx ny x y s
  let value1 :=
    if s.noise_scale > 0 then
      let noise := (simple_noise (toU32 ((x : ℚ) * s.noise_scale))
        (toU32 ((y : ℚ) * s.noise_scale)) s.seed : ℚ) / 255
      value * 0.7 + noise * 0.3
    else value
  let value2 := clamp01 value1
  let value3 := if s.invert then 1 - value2 else value2
  (⌊value3 * 255⌋).toNat

/-- Pointwise update of the modelled pixel array. -/
def update (f : Nat → Nat) (j v : Nat) : Nat → Nat :=
  fun k => if k = j then v else f k

/-- The clamp `(new_val < 0) ? 0 : (new_val > 255) ? 255 : new_val`
used by every error-diffusion store (source lines 149, 156, 161, 166). -/
def clampByte (v : Int) : Nat :=
  if v < 0 then 0 else if 255 < v then 255 else v.toNat

/-- One error-diffusion store: read the neighbour, add the error share,
clamp to a byte, store back. -/
def diffuse (q : Nat → Nat) (t : Nat) (d : Int) : Nat → Nat :=
  update q t (clampByte ((q t : Int) + d))

/-- A guarded error-diffusion store (the bounds checks of the source). -/
def diffuseIf (c : Prop) [Decidable c] (q : Nat → Nat) (t : Nat) (d : Int) :
    Nat → Nat :=
  if c then diffuse q t d else q

/-- The body of the `apply_dither` double loop (source lines 137-169) at
row-major index `i` (`x = i % 128`, `y = i / 128`, `idx = i`): threshold
the pixel at `i`, then distribute the error to the four neighbours. -/
def ditherStep (q : Nat → Nat) (i : Nat) : Nat → Nat :=
  let x := i % SCREEN_WIDTH
  let y := i / SCREEN_WIDTH
  let old_pixel := q i
  let new_pixel : Nat := if 127 < old_pixel then 255 else 0
  let error : Int := (old_pixel : Int) - (new_pixel : Int)
  let q0 := update q i new_pixel
  let q1 := diffuseIf (x + 1 < SCREEN_WIDTH) q0
    (y * SCREEN_WIDTH + (x + 1)) (Int.tdiv (error * 7) 16)
  let q2 := diffuseIf (y + 1 < SCREEN_HEIGHT ∧ 0 < x) q1
    ((y + 1) * SCREEN_WIDTH + (x - 1)) (Int.tdiv (error * 3) 16)
  let q3 := diffuseIf (y + 1 < SCREEN_HEIGHT) q2
    ((y + 1) * SCREEN_WIDTH + x) (Int.tdiv (error * 5) 16)
  let q4 := diffuseIf (y + 1 < SCREEN_HEIGHT ∧ x + 1 < SCREEN_WIDTH) q3
    ((y + 1) * SCREEN_WIDTH + (x + 1)) (Int.tdiv (error * 1) 16)
  q4

/-- `apply_dither` (source lines 135-171): the row-major single pass
`y = 0..63` outer, `x = 0..127` inner, i.e. indices `0..8191` in order. -/
def apply_dither (q : Nat → Nat) : Nat → Nat :=
  (List.range (SCREEN_WIDTH * SCREEN_HEIGHT)).foldl ditherStep q

/-- The parameter-evolution body of `generate_frame` (source lines
188-204), which runs after `frame_count` has been incremented.  It is
instrumented to also return the list of `xorshift32` draws consumed, in
order, so that claims about the number and order of draws can be stated;
the first component is exactly what the source computes. -/
def evolve_params (s : GenerativeState) : GenerativeState × List Nat :=
  let rng0 := (s.seed + s.frame_count) % UINT32
  let d1 := xorshift32 rng0
  let step1 :=
    if d1 % 100 < 20 then
      let d2 := xorshift32 d1
      ({ s with gradient_type := d2 % 10 }, d2, [d1, d2])
    else (s, d1, [d1])
  let s1 := step1.1
  let rng1 := step1.2.1
  let draws1 := step1.2.2
  let d3 := xorshift32 rng1
  let s2 := { s1 with frequency := 1/2 + ((d3 % 100 : Nat) : ℚ) / 50 }
  let d4 := xorshift32 d3
  let s3 := { s2 with noise_scale := ((d4 % 50 : Nat) : ℚ) / 1000 }
  let d5 := xorshift32 d4
  let s4 := if d5 % 100 < 10 then { s3 with invert := !s3.invert } else s3
  (s4, draws1 ++ [d3, d4, d5])

/-- `generate_frame` (source lines 174-206): fill the raster from
`generate_gradient`, dither it, increment the 8-bit `frame_count`, and
run the evolution body when the new count is a multiple of 30. -/
def generate_frame (sqrtA : ℚ → ℚ) (atan2A : ℚ → ℚ → ℚ)
    (s : GenerativeState) : GenerativeState :=
  let p0 : Nat → Nat := fun i =>
    generate_gradient sqrtA atan2A (i % SCREEN_WIDTH) (i / SCREEN_WIDTH) s
  let p1 := apply_dither p0
  let s' := { s with pixels := p1, frame_count := (s.frame_count + 1) % 256 }
  if s'.frame_count % 30 = 0 then (evolve_params s').1 else s'

/-- Iterated frame production: `n` successive `generate_frame` calls. -/
def produceFrames (sqrtA : ℚ → ℚ) (atan2A : ℚ → ℚ → ℚ) :
    Nat → GenerativeState → GenerativeState
  | 0, s => s
  | n + 1, s => produceFrames sqrtA atan2A n (generate_frame sqrtA atan2A s)

/-- The initial state built by `flipper_gen_app_alloc` (source lines
273-280) from an externally supplied 32-bit tick; the malloc'd pixel
array is uninitialised in the source and modelled as all zero (its
contents are irrelevant: every frame overwrites every pixel). -/
def init_state (tick : Nat) : GenerativeState :=
  { pixels := fun _ => 0
    seed := tick % UINT32
    mode := 0
    gradient_type := 0
    frequency := 1
    noise_scale := 0.05
    invert := false
    frame_count := 0 }

/-- `InputKeyOk` handler (source lines 234-239): reseed from a fresh
externally supplied tick and derive pattern kind and frequency from it. -/
def press_ok (tick : Nat) (s : GenerativeState) : GenerativeState :=
  let sd := tick % UINT32
  { s with seed := sd
           gradient_type := sd % 10
           frequency := 1/2 + ((sd % 100 : Nat) : ℚ) / 50 }

/-- `InputKeyUp` handler (source line 241): next pattern kind. -/
def press_up (s : GenerativeState) : GenerativeState :=
  { s with gradient_type := (s.gradient_type + 1) % 10 }

/-- `InputKeyDown` handler (source line 244): previous pattern kind. -/
def press_down (s : GenerativeState) : GenerativeState :=
  { s with gradient_type := (s.gradient_type + 9) % 10 }

/-- `InputKeyLeft` handler (source line 247): `fmaxf(0.1f, f - 0.1f)`. -/
def press_left (s : GenerativeState) : GenerativeState :=
  { s with frequency := max 0.1 (s.frequency - 0.1) }

/-- `InputKeyRight` handler (source line 250): `fminf(4.0f, f + 0.1f)`. -/
def press_right (s : GenerativeState) : GenerativeState :=
  { s with frequency := min 4 (s.frequency + 0.1) }

/-- The parameter ranges the spec declares invariant:
`frequency ∈ [0.1, 4.0]` and `noiseAmount ∈ [0, 1]`. -/
def paramInv (s : GenerativeState) : Prop :=
  0.1 ≤ s.frequency ∧ s.frequency ≤ 4 ∧ 0 ≤ s.noise_scale ∧ s.noise_scale ≤ 1

/-- A concrete state whose 8-bit `frame_count` is at its maximum, 255. -/
def c4_state : GenerativeState := { init_state 5 with frame_count := 255 }

/-- A concrete state whose next evolution tick derives the degenerate
zero rng seed: `seed + frame_count + 1 = 2^32`. -/
def c9_state : GenerativeState := { init_state 4294967266 with frame_count := 29 }

/-- A concrete state whose `gradient_type` lies outside the enumeration `0..9`. -/
def c10_state : GenerativeState := { init_state 0 with gradient_type := 10 }

theorem update_ne {k : Nat} (f : Nat → Nat) (j v : Nat) (h : k ≠ j) :
    update f j v k = f k := by
  simp [update, h]

theorem diffuse_ne {k : Nat} (q : Nat → Nat) (t : Nat) (d : Int) (h : k ≠ t) :
    diffuse q t d k = q k := by
  simp [diffuse, update, h]

theorem diffuseIf_ne {k : Nat} (c : Prop) [Decidable c] (q : Nat → Nat)
    (t : Nat) (d : Int) (h : k ≠ t) : diffuseIf c q t d k = q k := by
  unfold diffuseIf
  split
  · exact diffuse_ne q t d h
  · rfl

theorem ditherStep_lt (q : Nat → Nat) (i k : Nat) (hk : k < i) :
    ditherStep q i k = q k := by
  simp only [ditherStep, SCREEN_WIDTH, SCREEN_HEIGHT]
  rw [diffuseIf_ne, diffuseIf_ne, diffuseIf_ne, diffuseIf_ne, update_ne] <;> omega

theorem ditherStep_self (q : Nat → Nat) (i : Nat) :
    ditherStep q i i = 0 ∨ ditherStep q i i = 255 := by
  simp only [ditherStep, SCREEN_WIDTH, SCREEN_HEIGHT]
  rw [diffuseIf_ne, diffuseIf_ne, diffuseIf_ne, diffuseIf_ne]
  · by_cases h : 127 < q i
    · right; simp [update, h]
    · left; simp [update, h]
  all_goals omega

theorem dither_aux (n : Nat) :
    ∀ q j, j < n → ((List.range n).foldl ditherStep q) j = 0 ∨
      ((List.range n).foldl ditherStep q) j = 255 := by
  induction n with
  | zero => intro q j h; omega
  | succ n ih =>
    intro q j h
    rw [List.range_succ, List.foldl_append]
    simp only [List.foldl_cons, List.foldl_nil]
    rcases Nat.lt_or_ge j n with hj | hj
    · rw [ditherStep_lt _ _ _ hj]
      exact ih q j hj
    · have hj' : j = n := by omega
      subst hj'
      exact ditherStep_self _ _

theorem apply_dither_binary (q : Nat → Nat) (j : Nat)
    (hj : j < SCREEN_WIDTH * SCREEN_HEIGHT) :
    apply_dither q j = 0 ∨ apply_dither q j = 255 :=
  dither_aux _ q j hj

theorem exists_testBit {a : Nat} (h : a ≠ 0) : ∃ i, a.testBit i = true := by
  by_contra hc
  push_neg at hc
  exact h (Nat.eq_of_testBit_eq (fun i => by
    simp [Nat.zero_testBit, Bool.eq_false_iff.mpr (hc i)]))

theorem xor_shiftLeft_mod_ne_zero (k a : Nat) (hk : 0 < k)
    (ha : a < UINT32) (h0 : a ≠ 0) : a ^^^ ((a <<< k) % UINT32) ≠ 0 := by
  have h2 : UINT32 = 2 ^ 32 := by norm_num [UINT32]
  obtain ⟨i, hi⟩ := exists_testBit h0
  have hex : ∃ i, a.testBit i = true := ⟨i, hi⟩
  set b := Nat.find hex with hb
  have hbt : a.testBit b = true := Nat.find_spec hex
  have hmin : ∀ j, j < b → a.testBit j = false := by
    intro j hj
    have := Nat.find_min hex hj
    simpa using this
  have hble : 2 ^ b ≤ a := Nat.testBit_implies_ge hbt
  have hb32 : b < 32 := by
    by_contra hc
    push_neg at hc
    have : 2 ^ 32 ≤ 2 ^ b := Nat.pow_le_pow_right (by norm_num) hc
    omega
  intro hzero
  have : (a ^^^ ((a <<< k) % UINT32)).testBit b = false := by
    rw [hzero]; exact Nat.zero_testBit b
  rw [Nat.testBit_xor, h2, Nat.testBit_mod_two_pow, Nat.testBit_shiftLeft] at this
  have hshift : (decide (b ≥ k) && a.testBit (b - k)) = false := by
    by_cases hbk : b ≥ k
    · have : b - k < b := by omega
      simp [hbk, hmin _ this]
    · simp [hbk]
  rw [hshift] at this
  simp [hbt, hb32] at this

theorem xor_shiftRight_ne_zero (k a : Nat) (hk : 0 < k) (h0 : a ≠ 0) :
    a ^^^ (a >>> k) ≠ 0 := by
  intro hzero
  have heq : a = a >>> k := by
    have := Nat.eq_of_testBit_eq (x := a) (y := a >>> k) (fun i => by
      have hb := congrArg (fun z => z.testBit i) hzero
      simp only [Nat.testBit_xor, Nat.zero_testBit] at hb
      revert hb
      cases a.testBit i <;> cases (a >>> k).testBit i <;> simp)
    exact this
  rw [Nat.shiftRight_eq_div_pow] at heq
  have hlt : a / 2 ^ k < a := Nat.div_lt_self (Nat.pos_of_ne_zero h0)
    (by have : 2 ^ 1 ≤ 2 ^ k := Nat.pow_le_pow_right (by norm_num) hk; omega)
  omega

theorem xorshift32_nonzero_aux (s : Nat) (h32 : s < UINT32) (h0 : s ≠ 0) :
    xorshift32 s ≠ 0 := by
  have h2 : UINT32 = 2 ^ 32 := by norm_num [UINT32]
  simp only [xorshift32]
  have hm : (s <<< 13) % UINT32 < UINT32 := Nat.mod_lt _ (by norm_num [UINT32])
  have hs1lt : s ^^^ ((s <<< 13) % UINT32) < UINT32 := by
    rw [h2] at hm h32 ⊢
    exact Nat.xor_lt_two_pow h32 hm
  have hs1 : s ^^^ ((s <<< 13) % UINT32) ≠ 0 :=
    xor_shiftLeft_mod_ne_zero 13 s (by norm_num) h32 h0
  have hs2 : (s ^^^ ((s <<< 13) % UINT32)) ^^^ ((s ^^^ ((s <<< 13) % UINT32)) >>> 17) ≠ 0 :=
    xor_shiftRight_ne_zero 17 _ (by norm_num) hs1
  have hs2lt : (s ^^^ ((s <<< 13) % UINT32)) ^^^ ((s ^^^ ((s <<< 13) % UINT32)) >>> 17) < UINT32 := by
    rw [h2] at hs1lt ⊢
    refine Nat.xor_lt_two_pow hs1lt ?_
    calc (s ^^^ ((s <<< 13) % UINT32)) >>> 17 ≤ s ^^^ ((s <<< 13) % UINT32) := by
          rw [Nat.shiftRight_eq_div_pow]; exact Nat.div_le_self _ _
      _ < 2 ^ 32 := hs1lt
  exact xor_shiftLeft_mod_ne_zero 5 _ (by norm_num) hs2lt hs2

theorem evolve_params_fields (s : GenerativeState) :
    ∃ a b : Nat, a < 100 ∧ b < 50 ∧
      (evolve_params s).1.pixels = s.pixels ∧
      (evolve_params s).1.seed = s.seed ∧
      (evolve_params s).1.frame_count = s.frame_count ∧
      (evolve_params s).1.frequency = 1/2 + (a : ℚ) / 50 ∧
      (evolve_params s).1.noise_scale = (b : ℚ) / 1000 := by
  unfold evolve_params
  dsimp only
  split_ifs with h1 h2 h3 <;>
    exact ⟨_ % 100, _ % 50, Nat.mod_lt _ (by norm_num), Nat.mod_lt _ (by norm_num),
      rfl, rfl, rfl, rfl, rfl⟩

/-- Unfolding equation for `generate_frame`: the produced state is the
dithered-raster update, with the evolution body applied exactly when the
incremented 8-bit counter is a multiple of 30. -/
theorem generate_frame_eq (sqrtA : ℚ → ℚ) (atan2A : ℚ → ℚ → ℚ)
    (s : GenerativeState) :
    generate_frame sqrtA atan2A s =
      (if (s.frame_count + 1) % 256 % 30 = 0
       then (evolve_params
        { s with
          pixels := apply_dither (fun i =>
            generate_gradient sqrtA atan2A (i % SCREEN_WIDTH) (i / SCREEN_WIDTH) s)
          frame_count := (s.frame_count + 1) % 256 }).1
       else
        { s with
          pixels := apply_dither (fun i =>
            generate_gradient sqrtA atan2A (i % SCREEN_WIDTH) (i / SCREEN_WIDTH) s)
          frame_count := (s.frame_count + 1) % 256 }) := rfl

theorem frame_aux_pixels (s : GenerativeState) (q : Nat → Nat) :
    (if (s.frame_count + 1) % 256 % 30 = 0
     then (evolve_params
      { s with pixels := q, frame_count := (s.frame_count + 1) % 256 }).1
     else
      { s with pixels := q, frame_count := (s.frame_count + 1) % 256 }).pixels = q := by
  split_ifs with h
  · obtain ⟨a, b, _, _, hp, _⟩ := evolve_params_fields _
    rw [hp]
  · rfl

theorem frame_aux_count (s : GenerativeState) (q : Nat → Nat) :
    (if (s.frame_count + 1) % 256 % 30 = 0
     then (evolve_params
      { s with pixels := q, frame_count := (s.frame_count + 1) % 256 }).1
     else
      { s with pixels := q, frame_count := (s.frame_count + 1) % 256 }).frame_count =
    (s.frame_count + 1) % 256 := by
  split_ifs with h
  · obtain ⟨a, b, _, _, _, _, hf, _, _⟩ := evolve_params_fields _
    rw [hf]
  · rfl

theorem generate_frame_pixels (sqrtA : ℚ → ℚ) (atan2A : ℚ → ℚ → ℚ)
    (s : GenerativeState) :
    (generate_frame sqrtA atan2A s).pixels =
      apply_dither (fun i =>
        generate_gradient sqrtA atan2A (i % SCREEN_WIDTH) (i / SCREEN_WIDTH) s) := by
  rw [generate_frame_eq, frame_aux_pixels]

theorem generate_frame_count (sqrtA : ℚ → ℚ) (atan2A : ℚ → ℚ → ℚ)
    (s : GenerativeState) :
    (generate_frame sqrtA atan2A s).frame_count = (s.frame_count + 1) % 256 := by
  rw [generate_frame_eq, frame_aux_count]

theorem evolve_params_zero_seed (s : GenerativeState)
    (h : (s.seed + s.frame_count) % UINT32 = 0) :
    (evolve_params s).1.gradient_type = 0 ∧ (evolve_params s).1.frequency = 1/2 ∧
    (evolve_params s).1.noise_scale = 0 ∧ (evolve_params s).1.invert = !s.invert := by
  have hx : xorshift32 0 = 0 := by decide
  unfold evolve_params
  rw [h]
  norm_num [hx]

theorem clamp01_bounds (v : ℚ) : 0 ≤ clamp01 v ∧ clamp01 v ≤ 1 := by
  unfold clamp01
  dsimp only
  split_ifs <;> constructor <;> linarith

theorem final_byte_le (v : ℚ) (b : Bool) :
    (⌊(if b then 1 - clamp01 v else clamp01 v) * 255⌋).toNat ≤ 255 := by
  obtain ⟨h0, h1⟩ := clamp01_bounds v
  have hv : (if b then 1 - clamp01 v else clamp01 v) ≤ 1 := by
    split_ifs <;> linarith
  have h255 : (if b then 1 - clamp01 v else clamp01 v) * 255 ≤ 255 := by
    calc (if b then 1 - clamp01 v else clamp01 v) * 255 ≤ 1 * 255 :=
          mul_le_mul_of_nonneg_right hv (by norm_num)
      _ = 255 := by norm_num
  have hfl : ⌊(if b then 1 - clamp01 v else clamp01 v) * 255⌋ ≤ (255 : ℤ) := by
    have h := Int.floor_le_floor h255
    simpa using h
  exact Int.toNat_le.mpr (by exact_mod_cast hfl)

theorem pattern_value_default (sqrtA : ℚ → ℚ) (atan2A : ℚ → ℚ → ℚ)
    (nx ny : ℚ) (x y : Nat) (s : GenerativeState) (h : 10 ≤ s.gradient_type) :
    pattern_value sqrtA atan2A nx ny x y s = nx := by
  have h0 : s.gradient_type ≠ 0 := by omega
  have h1 : s.gradient_type ≠ 1 := by omega
  have h2 : s.gradient_type ≠ 2 := by omega
  have h3 : s.gradient_type ≠ 3 := by omega
  have h4 : s.gradient_type ≠ 4 := by omega
  have h5 : s.gradient_type ≠ 5 := by omega
  have h6 : s.gradient_type ≠ 6 := by omega
  have h7 : s.gradient_type ≠ 7 := by omega
  have h8 : s.gradient_type ≠ 8 := by omega
  have h9 : s.gradient_type ≠ 9 := by omega
  unfold pattern_value
  rw [if_neg h0, if_neg h1, if_neg h2, if_neg h3, if_neg h4, if_neg h5,
    if_neg h6, if_neg h7, if_neg h8, if_neg h9]

theorem pattern_value_kind_zero (sqrtA : ℚ → ℚ) (atan2A : ℚ → ℚ → ℚ)
    (nx ny : ℚ) (x y : Nat) (s : GenerativeState) :
    pattern_value sqrtA atan2A nx ny x y { s with gradient_type := 0 } = nx := by
  unfold pattern_value
  simp

/-- C1: after the quantizer pass of `generate_frame` (`apply_dither`)
completes, every entry of the fixed 128x64 raster is exactly 0 or 255;
the single row-major pass suffices because error propagation writes only
to not-yet-visited indices (`ditherStep_lt`/`ditherStep_self`). -/
theorem C1_quantizer_binary (sqrtA : ℚ → ℚ) (atan2A : ℚ → ℚ → ℚ)
    (s : GenerativeState) (j : Nat) (hj : j < SCREEN_WIDTH * SCREEN_HEIGHT) :
    (generate_frame sqrtA atan2A s).pixels j = 0 ∨
    (generate_frame sqrtA atan2A s).pixels j = 255 := by
  rw [generate_frame_pixels]
  exact apply_dither_binary _ j hj

/-- Witness for C1 at a concrete state and pixel index. -/
theorem C1_quantizer_binary_witness :
    0 < SCREEN_WIDTH * SCREEN_HEIGHT ∧
    ((generate_frame (fun _ => 0) (fun _ _ => 0) (init_state 0)).pixels 0 = 0 ∨
     (generate_frame (fun _ => 0) (fun _ _ => 0) (init_state 0)).pixels 0 = 255) :=
  ⟨by decide, C1_quantizer_binary (fun _ => 0) (fun _ _ => 0) (init_state 0) 0 (by decide)⟩

/-- C2: on every `generate_frame` call where the incremented counter is
not a multiple of 30, the parameters `seed`, `gradient_type` (pattern
kind), `frequency`, `noise_scale` and `invert` are left unchanged. -/
theorem C2_no_tick_params_stable (sqrtA : ℚ → ℚ) (atan2A : ℚ → ℚ → ℚ)
    (s : GenerativeState) (h : (s.frame_count + 1) % 256 % 30 ≠ 0) :
    (generate_frame sqrtA atan2A s).seed = s.seed ∧
    (generate_frame sqrtA atan2A s).gradient_type = s.gradient_type ∧
    (generate_frame sqrtA atan2A s).frequency = s.frequency ∧
    (generate_frame sqrtA atan2A s).noise_scale = s.noise_scale ∧
    (generate_frame sqrtA atan2A s).invert = s.invert := by
  rw [generate_frame_eq, if_neg h]
  exact ⟨rfl, rfl, rfl, rfl, rfl⟩

/-- Witness for C2 at the initial state (whose next counter value is 1). -/
theorem C2_no_tick_params_stable_witness :
    ((init_state 0).frame_count + 1) % 256 % 30 ≠ 0 ∧
    ((generate_frame (fun _ => 0) (fun _ _ => 0) (init_state 0)).seed = (init_state 0).seed ∧
     (generate_frame (fun _ => 0) (fun _ _ => 0) (init_state 0)).gradient_type = (init_state 0).gradient_type ∧
     (generate_frame (fun _ => 0) (fun _ _ => 0) (init_state 0)).frequency = (init_state 0).frequency ∧
     (generate_frame (fun _ => 0) (fun _ _ => 0) (init_state 0)).noise_scale = (init_state 0).noise_scale ∧
     (generate_frame (fun _ => 0) (fun _ _ => 0) (init_state 0)).invert = (init_state 0).invert) :=
  ⟨by decide, C2_no_tick_params_stable (fun _ => 0) (fun _ _ => 0) (init_state 0) (by decide)⟩

/-- Counterexample to C3: the number of xorshift draws consumed by the
evolution body is not fixed - a tick whose first draw falls below the 20%
threshold (seed 3) consumes five draws, while one that does not (seed 1)
consumes four. -/
theorem C3_draw_count_not_fixed :
    (evolve_params (init_state 3)).2.length = 5 ∧
    (evolve_params (init_state 1)).2.length = 4 ∧
    (evolve_params (init_state 3)).2.length ≠ (evolve_params (init_state 1)).2.length := by
  decide

/-- C3 (amended): the draws of an evolution tick are consumed in a fixed
order from the stream seeded with `seed + frameCounter`, but the
pattern-kind draw is consumed only when the first draw passes the 20%
check, so five draws are consumed in that case and four otherwise; the
sequence is a deterministic function of `seed + frameCounter`. -/
theorem C3_draws_characterization (s : GenerativeState) :
    (evolve_params s).2 =
      (if xorshift32 ((s.seed + s.frame_count) % UINT32) % 100 < 20 then
        [xorshift32 ((s.seed + s.frame_count) % UINT32),
         xorshift32 (xorshift32 ((s.seed + s.frame_count) % UINT32)),
         xorshift32 (xorshift32 (xorshift32 ((s.seed + s.frame_count) % UINT32))),
         xorshift32 (xorshift32 (xorshift32 (xorshift32 ((s.seed + s.frame_count) % UINT32)))),
         xorshift32 (xorshift32 (xorshift32 (xorshift32 (xorshift32 ((s.seed + s.frame_count) % UINT32)))))]
       else
        [xorshift32 ((s.seed + s.frame_count) % UINT32),
         xorshift32 (xorshift32 ((s.seed + s.frame_count) % UINT32)),
         xorshift32 (xorshift32 (xorshift32 ((s.seed + s.frame_count) % UINT32))),
         xorshift32 (xorshift32 (xorshift32 (xorshift32 ((s.seed + s.frame_count) % UINT32))))]) := by
  unfold evolve_params
  dsimp only
  split_ifs <;> rfl


/-- Counterexample to C4: from a state whose `frame_count` is 255, the
8-bit counter wraps to 0 on the next `generate_frame` call instead of
increasing. -/
theorem C4_wraps_at_255 :
    ¬ c4_state.frame_count <
      (generate_frame (fun _ => 0) (fun _ _ => 0) c4_state).frame_count := by
  decide

/-- C4 (amended): `frame_count` is an 8-bit counter set to
`(old + 1) % 256` by every `generate_frame` call; it strictly increases
on every call whose prior value is below 255. -/
theorem C4_frame_count_increment (sqrtA : ℚ → ℚ) (atan2A : ℚ → ℚ → ℚ)
    (s : GenerativeState) (h : s.frame_count < 255) :
    (generate_frame sqrtA atan2A s).frame_count = (s.frame_count + 1) % 256 ∧
    s.frame_count < (generate_frame sqrtA atan2A s).frame_count := by
  have hc := generate_frame_count sqrtA atan2A s
  exact ⟨hc, by rw [hc]; omega⟩

/-- Witness for the amended C4 at the initial state. -/
theorem C4_frame_count_increment_witness :
    (init_state 0).frame_count < 255 ∧
    ((generate_frame (fun _ => 0) (fun _ _ => 0) (init_state 0)).frame_count =
      ((init_state 0).frame_count + 1) % 256 ∧
     (init_state 0).frame_count <
      (generate_frame (fun _ => 0) (fun _ _ => 0) (init_state 0)).frame_count) :=
  ⟨by decide, C4_frame_count_increment (fun _ => 0) (fun _ _ => 0) (init_state 0) (by decide)⟩

/-- C5: from any state satisfying the spec ranges
(`frequency` in `[0.1, 4]`, `noise_scale` in `[0, 1]`), every core
mutation - frame production including the evolution tick, reseed (OK),
pattern cycling (Up/Down), and frequency nudges (Left/Right) - preserves
the ranges; the ranges also hold at the initial state, and the evolution
tick resamples `frequency` inside `[0.5, 2.5)` and `noise_scale` inside
`[0, 0.05)`. -/
theorem C5_param_ranges (sqrtA : ℚ → ℚ) (atan2A : ℚ → ℚ → ℚ) (tick : Nat)
    (s : GenerativeState) (h : paramInv s) :
    paramInv (init_state tick) ∧
    paramInv (generate_frame sqrtA atan2A s) ∧
    paramInv (press_ok tick s) ∧
    paramInv (press_up s) ∧
    paramInv (press_down s) ∧
    paramInv (press_left s) ∧
    paramInv (press_right s) ∧
    (1/2 ≤ (evolve_params s).1.frequency ∧ (evolve_params s).1.frequency < 5/2 ∧
     0 ≤ (evolve_params s).1.noise_scale ∧ (evolve_params s).1.noise_scale < 1/20) := by
  obtain ⟨hf1, hf2, hn1, hn2⟩ := h
  obtain ⟨a, b, ha, hb, _, _, _, hfr, hns⟩ := evolve_params_fields s
  have haq : (a : ℚ) < 100 := by exact_mod_cast ha
  have hbq : (b : ℚ) < 50 := by exact_mod_cast hb
  have ha0 : (0 : ℚ) ≤ a := Nat.cast_nonneg a
  have hb0 : (0 : ℚ) ≤ b := Nat.cast_nonneg b
  refine ⟨?_, ?_, ?_, ?_, ?_, ?_, ?_, ?_⟩
  · unfold paramInv init_state
    norm_num
  · rw [generate_frame_eq]
    split_ifs with ht
    · obtain ⟨c, d, hc, hd, _, _, _, hfr2, hns2⟩ := evolve_params_fields _
      have hcq : (c : ℚ) < 100 := by exact_mod_cast hc
      have hdq : (d : ℚ) < 50 := by exact_mod_cast hd
      have hc0 : (0 : ℚ) ≤ c := Nat.cast_nonneg c
      have hd0 : (0 : ℚ) ≤ d := Nat.cast_nonneg d
      exact ⟨by rw [hfr2]; norm_num; linarith, by rw [hfr2]; linarith,
        by rw [hns2]; positivity, by rw [hns2]; linarith⟩
    · exact ⟨hf1, hf2, hn1, hn2⟩
  · have hc : tick % UINT32 % 100 < 100 := Nat.mod_lt _ (by norm_num)
    have hcq : ((tick % UINT32 % 100 : Nat) : ℚ) < 100 := by exact_mod_cast hc
    have hc0 : (0 : ℚ) ≤ ((tick % UINT32 % 100 : Nat) : ℚ) := Nat.cast_nonneg _
    unfold paramInv press_ok
    dsimp only
    refine ⟨by norm_num; linarith, by linarith, hn1, hn2⟩
  · exact ⟨hf1, hf2, hn1, hn2⟩
  · exact ⟨hf1, hf2, hn1, hn2⟩
  · unfold paramInv press_left
    dsimp only
    exact ⟨le_max_left _ _, max_le (by norm_num) (by linarith), hn1, hn2⟩
  · unfold paramInv press_right
    dsimp only
    exact ⟨le_min (by norm_num) (by linarith), min_le_left _ _, hn1, hn2⟩
  · exact ⟨by rw [hfr]; linarith, by rw [hfr]; linarith,
      by rw [hns]; positivity, by rw [hns]; linarith⟩

/-- Witness for C5 at the initial state. -/
theorem C5_param_ranges_witness :
    paramInv (init_state 0) ∧
    (paramInv (init_state 0) ∧
     paramInv (generate_frame (fun _ => 0) (fun _ _ => 0) (init_state 0)) ∧
     paramInv (press_ok 0 (init_state 0)) ∧
     paramInv (press_up (init_state 0)) ∧
     paramInv (press_down (init_state 0)) ∧
     paramInv (press_left (init_state 0)) ∧
     paramInv (press_right (init_state 0)) ∧
     (1/2 ≤ (evolve_params (init_state 0)).1.frequency ∧
      (evolve_params (init_state 0)).1.frequency < 5/2 ∧
      0 ≤ (evolve_params (init_state 0)).1.noise_scale ∧
      (evolve_params (init_state 0)).1.noise_scale < 1/20)) :=
  ⟨by norm_num [paramInv, init_state],
   C5_param_ranges (fun _ => 0) (fun _ _ => 0) 0 (init_state 0)
     (by norm_num [paramInv, init_state])⟩

/-- C6: for every pixel coordinate, every pattern kind, every
`frequency >= 0` and `noise_scale` in `[0, 1]` (and any interpretation of
the float library calls), `generate_gradient` returns a value in
`[0, 255]`: the value is clamped to `[0, 1]`, optionally inverted inside
`[0, 1]`, then scaled to the 8-bit range.  The result type is `Nat`, so
the lower bound 0 is automatic and the theorem states the upper bound. -/
theorem C6_evaluator_range (sqrtA : ℚ → ℚ) (atan2A : ℚ → ℚ → ℚ)
    (x y : Nat) (s : GenerativeState) (_hx : x < SCREEN_WIDTH) (_hy : y < SCREEN_HEIGHT)
    (_hf : 0 ≤ s.frequency) (_hn0 : 0 ≤ s.noise_scale) (_hn1 : s.noise_scale ≤ 1) :
    generate_gradient sqrtA atan2A x y s ≤ 255 := by
  unfold generate_gradient
  dsimp only
  exact final_byte_le _ _

/-- Witness for C6 at pixel (0, 0) of the initial state. -/
theorem C6_evaluator_range_witness :
    0 < SCREEN_WIDTH ∧ 0 < SCREEN_HEIGHT ∧
    0 ≤ (init_state 0).frequency ∧ 0 ≤ (init_state 0).noise_scale ∧
    (init_state 0).noise_scale ≤ 1 ∧
    generate_gradient (fun _ => 0) (fun _ _ => 0) 0 0 (init_state 0) ≤ 255 :=
  ⟨by decide, by decide, by norm_num [init_state], by norm_num [init_state],
   by norm_num [init_state],
   C6_evaluator_range (fun _ => 0) (fun _ _ => 0) 0 0 (init_state 0) (by decide) (by decide)
     (by norm_num [init_state]) (by norm_num [init_state]) (by norm_num [init_state])⟩

/-- C7: `xorshift32` applies the three XOR-shift steps `<<13`, `>>17`,
`<<5` in order (see its definition), and for every nonzero 32-bit state
the returned value (the new state) is nonzero, while state 0 is a fixed
point. -/
theorem C7_xorshift_nonzero (s : Nat) (h32 : s < UINT32) (h0 : s ≠ 0) :
    xorshift32 s ≠ 0 ∧ xorshift32 0 = 0 :=
  ⟨xorshift32_nonzero_aux s h32 h0, by decide⟩

/-- Witness for C7 at state 1. -/
theorem C7_xorshift_nonzero_witness :
    (1 : Nat) < UINT32 ∧ (1 : Nat) ≠ 0 ∧ (xorshift32 1 ≠ 0 ∧ xorshift32 0 = 0) :=
  ⟨by decide, by decide, C7_xorshift_nonzero 1 (by decide) (by decide)⟩

/-- C8: frame production is deterministic - two runs from identical
states (same seed, pattern kind, frequency, noise amount, invert flag and
frame counter) performing the same number of `generate_frame` calls with
no interleaved user actions end in bit-identical rasters and identical
parameters after every call. -/
theorem C8_deterministic (sqrtA : ℚ → ℚ) (atan2A : ℚ → ℚ → ℚ) (n : Nat)
    (s t : GenerativeState) (h : s = t) :
    produceFrames sqrtA atan2A n s = produceFrames sqrtA atan2A n t := by
  rw [h]

/-- Witness for C8: one frame from two identical initial states. -/
theorem C8_deterministic_witness :
    init_state 42 = init_state 42 ∧
    produceFrames (fun _ => 0) (fun _ _ => 0) 1 (init_state 42) =
      produceFrames (fun _ => 0) (fun _ _ => 0) 1 (init_state 42) :=
  ⟨rfl, C8_deterministic (fun _ => 0) (fun _ _ => 0) 1 (init_state 42) (init_state 42) rfl⟩

/-- C9: on an evolution tick whose derived stream seed
`seed + frameCounter` is 0 modulo `2^32`, every draw is 0, so both
probability checks fire: the pattern kind becomes 0, `frequency` becomes
0.5, `noise_scale` becomes 0 and `invert` is toggled. -/
theorem C9_zero_rng_tick (sqrtA : ℚ → ℚ) (atan2A : ℚ → ℚ → ℚ)
    (s : GenerativeState) (h30 : (s.frame_count + 1) % 256 % 30 = 0)
    (hz : (s.seed + (s.frame_count + 1) % 256) % UINT32 = 0) :
    (generate_frame sqrtA atan2A s).gradient_type = 0 ∧
    (generate_frame sqrtA atan2A s).frequency = 1/2 ∧
    (generate_frame sqrtA atan2A s).noise_scale = 0 ∧
    (generate_frame sqrtA atan2A s).invert = !s.invert := by
  rw [generate_frame_eq, if_pos h30]
  exact evolve_params_zero_seed _ hz


/-- Witness for C9 at a concrete state realising the degenerate seed. -/
theorem C9_zero_rng_tick_witness :
    (c9_state.frame_count + 1) % 256 % 30 = 0 ∧
    (c9_state.seed + (c9_state.frame_count + 1) % 256) % UINT32 = 0 ∧
    ((generate_frame (fun _ => 0) (fun _ _ => 0) c9_state).gradient_type = 0 ∧
     (generate_frame (fun _ => 0) (fun _ _ => 0) c9_state).frequency = 1/2 ∧
     (generate_frame (fun _ => 0) (fun _ _ => 0) c9_state).noise_scale = 0 ∧
     (generate_frame (fun _ => 0) (fun _ _ => 0) c9_state).invert = !c9_state.invert) :=
  ⟨by decide, by decide,
   C9_zero_rng_tick (fun _ => 0) (fun _ _ => 0) c9_state (by decide) (by decide)⟩

/-- C10: for every pattern kind outside `0..9` the switch falls through
to the default branch, which computes the horizontal pattern, so such a
state behaves exactly like pattern kind 0. -/
theorem C10_default_pattern_kind (sqrtA : ℚ → ℚ) (atan2A : ℚ → ℚ → ℚ)
    (x y : Nat) (s : GenerativeState) (h : 10 ≤ s.gradient_type) :
    generate_gradient sqrtA atan2A x y s =
      generate_gradient sqrtA atan2A x y { s with gradient_type := 0 } := by
  unfold generate_gradient
  dsimp only
  rw [pattern_value_default _ _ _ _ _ _ _ h, pattern_value_kind_zero]


/-- Witness for C10 with pattern kind 10. -/
theorem C10_default_pattern_kind_witness :
    10 ≤ c10_state.gradient_type ∧
    generate_gradient (fun _ => 0) (fun _ _ => 0) 0 0 c10_state =
      generate_gradient (fun _ => 0) (fun _ _ => 0) 0 0 { c10_state with gradient_type := 0 } :=
  ⟨by decide, C10_default_pattern_kind (fun _ => 0) (fun _ _ => 0) 0 0 c10_state (by decide)⟩
